import Mathlib

/-!
Verification of the product-admin dashboard's client-side reconciliation
engine, gateway client and query layer.

The definitions below are a shallow embedding of the JavaScript source:

* `src/pages/Dashboard.jsx` (two variants concatenated in the repository;
  the first variant's `handleSaveChanges`, `handleInputChange`,
  `handleAddRow`, `handleRemoveNewRow`, `fetchData` and the validation
  memos; the second variant's `fetchInventory` and `handleCategorySearch`
  and the post-save settlement of both variants),
* `src/services/apiService.js` (`graphqlRequest` with its bounded retry),
* `src/components/LocalizationModal.jsx` (`handleDeleteLocalization`,
  `handleAddLocalization`, `handleInputChange` on localization rows).

JavaScript dynamic values are embedded as follows: a field that the UI
overwrites with an input string while the server fills it with a number
(`quantityInStock`, `price`) is a `JVal`; the transient `id` of a product
row is `Option String` (`none` embeds the absent/undefined field of a
persisted product); `JSON.stringify` equality of records built from the
same shape is structural equality; an absent GraphQL `errors` field is
embedded as the empty list.
-/

namespace ProductAdmin

/-- Embedding of a JavaScript value that is a number when fetched from the
server and a string once an input field has overwritten it. -/
inductive JVal where
  | num (n : Int)
  | str (s : String)
deriving DecidableEq, Repr

/-- Localization record of a product (`lang`, `country`, `productName`,
`description`, `price`, `currency`); `tempId` embeds the `_tempId` marker
that `LocalizationModal.createNewLocalization` attaches to a not yet
persisted row (`none` for persisted rows, which lack the field). -/
structure Localization where
  lang : String
  country : String
  productName : String
  description : String
  price : JVal
  currency : String
  tempId : Option String := none
deriving DecidableEq, Repr

/-- Translation of a category name into one language. -/
structure Translation where
  lang : String
  text : String
deriving DecidableEq, Repr

/-- Working-set product row of the dashboard.  `id` is the temporary
identity `NEW_...` of a not yet persisted row (`none` embeds the absent
field of a fetched product). -/
structure Product where
  id : Option String := none
  sku : String
  category : String
  imageUrl : String
  productStatus : String
  quantityInStock : JVal
  localizations : List Localization
  isNew : Bool
  isDeleted : Bool
deriving DecidableEq, Repr

/-- Working-set category row of the dashboard. -/
structure Category where
  category : String
  translations : List Translation
  isNew : Bool
  isDeleted : Bool
deriving DecidableEq, Repr

/-- Product as returned by the GraphQL layer (no transient flags; the
localization list may be empty). -/
structure ServerProduct where
  sku : String
  category : String
  imageUrl : String
  productStatus : String
  quantityInStock : Int
  localizations : List Localization
deriving DecidableEq, Repr

/-- Category as returned by the GraphQL layer. -/
structure ServerCategory where
  category : String
  translations : List Translation
deriving DecidableEq, Repr

/-- Server data used by a full refetch. -/
structure ServerData where
  products : List ServerProduct
  categories : List ServerCategory
deriving DecidableEq, Repr

/-- Dashboard state: working and baseline collections
(`products`, `originalProducts`, `categories`, `originalCategories`). -/
structure DashState where
  products : List Product
  originalProducts : List Product
  categories : List Category
  originalCategories : List Category
deriving DecidableEq, Repr

/-- Dashboard.jsx `createDefaultLocalization`. -/
def createDefaultLocalization : Localization :=
  { lang := "en", country := "us", productName := "", description := "",
    price := JVal.num 0, currency := "USD" }

/-- Normalization applied to each fetched product in `fetchData` and
`fetchInventory`:
`{ ...p, localizations: p.localizations?.length > 0 ? p.localizations
: [createDefaultLocalization()], isNew: false, isDeleted: false }`. -/
def normalizeProduct (p : ServerProduct) : Product :=
  { sku := p.sku, category := p.category, imageUrl := p.imageUrl,
    productStatus := p.productStatus,
    quantityInStock := JVal.num p.quantityInStock,
    localizations :=
      if 0 < p.localizations.length then p.localizations
      else [createDefaultLocalization],
    isNew := false, isDeleted := false }

/-- Normalization applied to each fetched category:
`{ ...c, isNew: false, isDeleted: false }`. -/
def normalizeCategory (c : ServerCategory) : Category :=
  { category := c.category, translations := c.translations,
    isNew := false, isDeleted := false }

/-- Dashboard.jsx `fetchData` on its initial-load path (`productToken`
null): the fetched collections become both the working copies and, via
`deepCopy`, the baselines. -/
def fetchData (server : ServerData) : DashState :=
  { products := server.products.map normalizeProduct,
    originalProducts := server.products.map normalizeProduct,
    categories := server.categories.map normalizeCategory,
    originalCategories := server.categories.map normalizeCategory }

/-- Dashboard.jsx `validCategories` memo: `categories.filter(c => !c.isDeleted)`. -/
def validCategories (categories : List Category) : List Category :=
  categories.filter (fun c => !c.isDeleted)

/-- Dashboard.jsx `validCategoryNames` memo: the names of the non-deleted
categories (the JS `Set` is embedded as the underlying list; membership is
what the code consumes). -/
def validCategoryNames (categories : List Category) : List String :=
  (validCategories categories).map (fun c => c.category)

/-- Insertion-order key deduplication, as performed by building a JS
object keyed by sku and taking `Object.keys`: first occurrence wins. -/
def dedupFirstAux (seen : List String) : List String → List String
  | [] => []
  | s :: rest =>
    if seen.contains s then dedupFirstAux seen rest
    else s :: dedupFirstAux (s :: seen) rest

/-- Keys of a JS object built by repeated assignment, in insertion order. -/
def dedupFirst (l : List String) : List String := dedupFirstAux [] l

/-- Dashboard.jsx `duplicateSkuSet` memo: skus of non-deleted products with
a truthy (non-empty) sku that occur more than once, in first-occurrence
order as produced by `Object.keys` over the count object. -/
def duplicateSkuSet (products : List Product) : List String :=
  let skus := (products.filter (fun p => !p.isDeleted && p.sku != "")).map (fun p => p.sku)
  (dedupFirst skus).filter (fun s => 1 < skus.count s)

/-- Embedding of `Array.prototype.join(sep)`. -/
def joinSep (sep : String) : List String → String
  | [] => ""
  | [a] => a
  | a :: b :: rest => a ++ sep ++ joinSep sep (b :: rest)

/-- Message pushed by `handleSaveChanges` when `duplicateSkuSet.size > 0`. -/
def dupSkuMessage (products : List Product) : String :=
  "Duplicate SKUs found: " ++ joinSep ", " (duplicateSkuSet products) ++ "."

/-- Validation performed at the top of `handleSaveChanges` (first variant,
identical in the second): the three pushed messages, in push order. -/
def validationErrors (s : DashState) : List String :=
  (if s.products.any (fun p => !p.isDeleted && p.category == "")
   then ["Products with no category assigned."] else []) ++
  (if s.products.any (fun p =>
      !p.isDeleted && p.category != "" &&
        !((validCategoryNames s.categories).contains p.category))
   then ["Products assigned to a deleted category."] else []) ++
  (if (duplicateSkuSet s.products).isEmpty then []
   else [dupSkuMessage s.products])

/-- Embedding of JS `parseInt(s, 10)` on a string: optional leading
spaces and sign, then a maximal run of digits; `none` embeds `NaN`. -/
def parseIntStr (s : String) : Option Int :=
  let core : List Char → Option Nat := fun cs =>
    let ds := cs.takeWhile Char.isDigit
    if ds.isEmpty then none
    else some (ds.foldl (fun a c => a * 10 + (c.toNat - 48)) 0)
  match s.data.dropWhile (fun c => c.isWhitespace) with
  | '-' :: rest => (core rest).map (fun n => -(n : Int))
  | '+' :: rest => (core rest).map (fun n => (n : Int))
  | rest => (core rest).map (fun n => (n : Int))

/-- JS `parseInt(v, 10)` on a dynamic value: a number is truncated to an
integer (our embedded numbers already are integers), a string is parsed. -/
def parseIntJV : JVal → Option Int
  | JVal.num n => some n
  | JVal.str s => parseIntStr s

/-- Payload of `apiService.createProduct` as built by `handleSaveChanges`:
the product minus `isNew`, `isDeleted`, `id`, with `quantityInStock`
passed through `parseInt`. -/
structure CreateProductInput where
  sku : String
  category : String
  imageUrl : String
  productStatus : String
  quantityInStock : Option Int
  localizations : List Localization
deriving DecidableEq, Repr

/-- Payload of `apiService.updateProduct` as built by the first variant's
`handleSaveChanges`: only the five scalar fields. -/
structure UpdateProductInput where
  sku : String
  category : String
  imageUrl : String
  productStatus : String
  quantityInStock : Option Int
deriving DecidableEq, Repr

/-- Remote mutation call pushed by `handleSaveChanges` (first variant). -/
inductive Mutation where
  | createCategory (category : String) (translations : List Translation)
  | deleteCategory (category : String)
  | createProduct (input : CreateProductInput)
  | updateProduct (input : UpdateProductInput)
  | deleteProduct (sku : String)
deriving DecidableEq, Repr

/-- Create payload for a product row. -/
def mkCreateInput (p : Product) : CreateProductInput :=
  { sku := p.sku, category := p.category, imageUrl := p.imageUrl,
    productStatus := p.productStatus,
    quantityInStock := parseIntJV p.quantityInStock,
    localizations := p.localizations }

/-- Update payload for a product row (first variant). -/
def mkUpdateInput (p : Product) : UpdateProductInput :=
  { sku := p.sku, category := p.category, imageUrl := p.imageUrl,
    productStatus := p.productStatus,
    quantityInStock := parseIntJV p.quantityInStock }

/-- Mutations pushed for one category by the first variant's
`handleSaveChanges` loop:
`if (c.isNew && !c.isDeleted) createCategory({category, translations: []})`
`else if (original && !original.isNew && c.isDeleted) deleteCategory(...)`
where `original = originalCategories.find(oc => oc.category === c.category)`. -/
def categoryMutationFor (originalCategories : List Category) (c : Category) :
    List Mutation :=
  if c.isNew && !c.isDeleted then [Mutation.createCategory c.category []]
  else
    match originalCategories.find? (fun oc => oc.category == c.category) with
    | some original =>
      if !original.isNew && c.isDeleted then [Mutation.deleteCategory c.category]
      else []
    | none => []

/-- Mutations pushed for one product by the first variant's
`handleSaveChanges` loop:
`if (original && !original.isNew && p.isDeleted) deleteProduct(p.sku)`
`else if (p.isNew && !p.isDeleted) createProduct(...)`
`else if (original && !p.isNew && !p.isDeleted && stringify(p) !== stringify(original)) updateProduct(...)`
where `original = originalProducts.find(op => op.sku === p.sku)`. -/
def productMutationFor (originalProducts : List Product) (p : Product) :
    List Mutation :=
  match originalProducts.find? (fun op => op.sku == p.sku) with
  | some original =>
    if !original.isNew && p.isDeleted then [Mutation.deleteProduct p.sku]
    else if p.isNew && !p.isDeleted then [Mutation.createProduct (mkCreateInput p)]
    else if !p.isNew && !p.isDeleted && p ≠ original then
      [Mutation.updateProduct (mkUpdateInput p)]
    else []
  | none =>
    if p.isNew && !p.isDeleted then [Mutation.createProduct (mkCreateInput p)]
    else []

/-- Category `forEach` loop of `handleSaveChanges`, in list order. -/
def categoryMutations (originalCategories : List Category) :
    List Category → List Mutation
  | [] => []
  | c :: cs =>
    categoryMutationFor originalCategories c ++
      categoryMutations originalCategories cs

/-- Product `forEach` loop of `handleSaveChanges`, in list order. -/
def productMutations (originalProducts : List Product) :
    List Product → List Mutation
  | [] => []
  | p :: ps =>
    productMutationFor originalProducts p ++ productMutations originalProducts ps

/-- Full mutation batch of one save: categories first, then products. -/
def computeMutations (s : DashState) : List Mutation :=
  categoryMutations s.originalCategories s.categories ++
    productMutations s.originalProducts s.products

/-- Outcome of one `handleSaveChanges` invocation (first variant):
validation failure (early return with the error banner), user declining
the confirm dialog, an empty batch (early return after `mutations.length
=== 0`), or a dispatched batch followed by a refetch. -/
inductive SaveOutcome where
  | blocked (errors : List String)
  | notConfirmed
  | noChanges
  | dispatched (mutations : List Mutation)
deriving DecidableEq, Repr

/-- Dashboard.jsx `handleSaveChanges` (first variant) up to the point the
batch is dispatched: validate, confirm, compute the batch, early-return on
an empty batch.  `confirmed` is the user's answer to `window.confirm`. -/
def handleSaveChanges (s : DashState) (confirmed : Bool) : SaveOutcome :=
  let errors := validationErrors s
  if errors.isEmpty then
    if confirmed then
      let mutations := computeMutations s
      if mutations.isEmpty then SaveOutcome.noChanges
      else SaveOutcome.dispatched mutations
    else SaveOutcome.notConfirmed
  else SaveOutcome.blocked errors

/-- Remote calls issued by one save: empty unless the batch is dispatched. -/
def mutationsIssued (s : DashState) (confirmed : Bool) : List Mutation :=
  match handleSaveChanges s confirmed with
  | SaveOutcome.dispatched mutations => mutations
  | _ => []

/-- Working and baseline state after one save (first variant): a dispatched
batch is always followed by `fetchData()` (both in the success path and in
the catch), every other path leaves the state untouched. -/
def stateAfterSave (s : DashState) (confirmed : Bool) (server : ServerData) :
    DashState :=
  match handleSaveChanges s confirmed with
  | SaveOutcome.dispatched _ => fetchData server
  | _ => s

/-- Identifier used by the row handlers:
`p.isNew ? p.id : p.sku` (a persisted row is addressed by sku, a new row by
its temporary id). -/
def prodIdent (p : Product) : Option String :=
  if p.isNew then p.id else some p.sku

/-- Editable columns handed to `handleInputChange` by the product table. -/
inductive Field where
  | sku
  | category
  | imageUrl
  | productStatus
  | quantityInStock
deriving DecidableEq, Repr

/-- Dynamic read of one column, as `JSON.stringify` would see it. -/
def getField (p : Product) : Field → JVal
  | Field.sku => JVal.str p.sku
  | Field.category => JVal.str p.category
  | Field.imageUrl => JVal.str p.imageUrl
  | Field.productStatus => JVal.str p.productStatus
  | Field.quantityInStock => p.quantityInStock

/-- Spread update `{ ...p, [field]: value }` with an input string: every
column receives the string, so `quantityInStock` becomes a string value. -/
def setField (p : Product) : Field → String → Product
  | Field.sku, v => { p with sku := v }
  | Field.category, v => { p with category := v }
  | Field.imageUrl, v => { p with imageUrl := v }
  | Field.productStatus, v => { p with productStatus := v }
  | Field.quantityInStock, v => { p with quantityInStock := JVal.str v }

/-- Dashboard.jsx `handleInputChange`: rewrite every row whose identifier
matches, leave the others untouched. -/
def handleInputChange (products : List Product) (identifier : String)
    (f : Field) (value : String) : List Product :=
  products.map (fun p =>
    if prodIdent p == some identifier then setField p f value else p)

/-- Dashboard.jsx `handleAddRow`: prepend a fresh row with the given
temporary id, empty scalar fields, one default localization and
`isNew = true`. -/
def handleAddRow (products : List Product) (tempId : String) : List Product :=
  { id := some tempId, sku := "", category := "", imageUrl := "",
    productStatus := "ACTIVE", quantityInStock := JVal.num 0,
    localizations := [createDefaultLocalization],
    isNew := true, isDeleted := false } :: products

/-- Dashboard.jsx `handleRemoveNewRow`:
`currentProducts.filter(p => p.id !== identifier)` (a persisted row has no
`id`, so `undefined !== identifier` keeps it). -/
def handleRemoveNewRow (products : List Product) (identifier : String) :
    List Product :=
  products.filter (fun p => p.id != some identifier)


/-- LocalizationModal.jsx `handleDeleteLocalization`: a delete that would
empty the list is rejected with an alert and leaves the list unchanged;
otherwise the row at the given index is filtered out. -/
def handleDeleteLocalization (localizations : List Localization)
    (indexToDelete : Nat) : List Localization :=
  if localizations.length ≤ 1 then localizations
  else localizations.eraseIdx indexToDelete

/-- LocalizationModal.jsx `createNewLocalization` (fresh temporary id). -/
def createNewLocalization (tempId : String) : Localization :=
  { lang := "", country := "", productName := "", description := "",
    price := JVal.num 0, currency := "USD", tempId := some tempId }

/-- LocalizationModal.jsx `handleAddLocalization`: append a fresh row. -/
def handleAddLocalization (localizations : List Localization)
    (tempId : String) : List Localization :=
  localizations ++ [createNewLocalization tempId]

/-- Editable columns of one localization row in the modal. -/
inductive LocField where
  | lang
  | country
  | productName
  | description
  | price
  | currency
deriving DecidableEq, Repr

/-- Spread update of one localization row with an input string. -/
def setLocField (l : Localization) : LocField → String → Localization
  | LocField.lang, v => { l with lang := v }
  | LocField.country, v => { l with country := v }
  | LocField.productName, v => { l with productName := v }
  | LocField.description, v => { l with description := v }
  | LocField.price, v => { l with price := JVal.str v }
  | LocField.currency, v => { l with currency := v }

/-- LocalizationModal.jsx `handleInputChange`: copy the array and replace
the row at the given index. -/
def locInputChange (localizations : List Localization) (index : Nat)
    (f : LocField) (value : String) : List Localization :=
  match localizations[index]? with
  | some item => localizations.set index (setLocField item f value)
  | none => localizations

/-- Client-side operation on one product's localization list, as offered
by the modal. -/
inductive LocOp where
  | add (tempId : String)
  | delete (index : Nat)
  | edit (index : Nat) (f : LocField) (value : String)
deriving DecidableEq, Repr

/-- Application of one modal operation. -/
def applyLocOp (localizations : List Localization) : LocOp → List Localization
  | LocOp.add tempId => handleAddLocalization localizations tempId
  | LocOp.delete index => handleDeleteLocalization localizations index
  | LocOp.edit index f value => locInputChange localizations index f value

/-- Application of a sequence of modal operations, oldest first. -/
def applyLocOps (localizations : List Localization) : List LocOp → List Localization
  | [] => localizations
  | op :: ops => applyLocOps (applyLocOp localizations op) ops

/-- Application-level GraphQL error entry (`errorType`, `message`). -/
structure GqlErr where
  errorType : String
  message : String
deriving DecidableEq, Repr

/-- Response of one `fetch` attempt inside `graphqlRequest`: HTTP status,
the `errors` array of the JSON body (`[]` embeds an absent field) and the
`data` payload, left opaque. -/
structure FetchResponse where
  status : Nat
  errors : List GqlErr
  payload : String
deriving DecidableEq, Repr

/-- JS `response.ok`: status in the 200 to 299 range. -/
def statusOk (status : Nat) : Bool := 200 ≤ status && status < 300

/-- Result channel of `graphqlRequest` as seen by the caller. -/
inductive ReqOutcome where
  | notAuthenticated
  | transportError (status : Nat)
  | applicationError (msg : String)
  | success (payload : String)
deriving DecidableEq, Repr

/-- Trace of one `graphqlRequest` invocation: the caller-visible outcome,
the number of `fetch` attempts issued and the number of forced token
refresh calls made before retrying. -/
structure ReqTrace where
  outcome : ReqOutcome
  fetches : Nat
  refreshes : Nat
deriving DecidableEq, Repr

/-- apiService.js `graphqlRequest(query, variables, isRetry)`.  `hasToken`
embeds the `authService.getCurrentUserToken()` result, `net k` the response
of the `k`-th `fetch` attempt.  A 401 status or an application-level
`Unauthorized` error entry triggers a token refresh and a recursive call
with `isRetry = true`; with `isRetry` set both retry branches are dead, so
the recursion depth is bounded by construction.  A non-ok status surfaces
as a transport error, a non-auth error list as the first entry's message
(with the `"GraphQL error occurred"` fallback), otherwise the data payload
is returned. -/
def graphqlRequest (hasToken : Bool) (net : Nat → FetchResponse) (k : Nat)
    (isRetry : Bool) : ReqTrace :=
  if !hasToken then { outcome := ReqOutcome.notAuthenticated, fetches := 0, refreshes := 0 }
  else
    let r := net k
    if r.status == 401 && !isRetry then
      let rest := graphqlRequest hasToken net (k + 1) true
      { outcome := rest.outcome, fetches := rest.fetches + 1,
        refreshes := rest.refreshes + 1 }
    else if !(statusOk r.status) then
      { outcome := ReqOutcome.transportError r.status, fetches := 1, refreshes := 0 }
    else
      match r.errors with
      | [] => { outcome := ReqOutcome.success r.payload, fetches := 1, refreshes := 0 }
      | e :: es =>
        if (e :: es).any (fun x => x.errorType == "Unauthorized") && !isRetry then
          let rest := graphqlRequest hasToken net (k + 1) true
          { outcome := rest.outcome, fetches := rest.fetches + 1,
            refreshes := rest.refreshes + 1 }
        else
          { outcome := ReqOutcome.applicationError
              (if e.message == "" then "GraphQL error occurred" else e.message),
            fetches := 1, refreshes := 0 }
termination_by if isRetry then 0 else 1
decreasing_by
  all_goals simp_all

/-- Test whether `needle` occurs as a contiguous run inside `hay`, walking
the suffixes — the embedding of `String.prototype.includes`. -/
def containsRun (needle : List Char) : List Char → Bool
  | [] => needle.isEmpty
  | c :: rest => needle.isPrefixOf (c :: rest) || containsRun needle rest

/-- JS `hay.includes(needle)`. -/
def includesJS (hay needle : String) : Bool := containsRun needle.data hay.data

/-- Product list produced by the second variant's `fetchInventory` when a
search result set is handed in (`productResults` non-null, so the items
come from that set): normalized fetched items, appended to the current
working list only while paging (`productToken` non-null and not clearing),
otherwise replacing it wholesale. -/
def fetchInventoryProducts (current : List Product)
    (productToken : Option String) (isClearingSearch : Bool)
    (items : List ServerProduct) : List Product :=
  let fetchedProducts := items.map normalizeProduct
  if productToken.isSome && !isClearingSearch then current ++ fetchedProducts
  else fetchedProducts

/-- JS `new Map(categories.map(c => [c.category, c])).get(k)`: the map is
built by repeated insertion, so the last entry with a given key wins. -/
def categoryMapGet (categories : List Category) (k : String) :
    Option Category :=
  categories.foldl (fun acc c => if c.category == k then some c else acc) none

/-- Second variant's `handleCategorySearch` merge: each search result is
replaced by the locally-tracked working copy when one exists, then deleted
entries whose name does not contain the search string are dropped. -/
def categorySearchMerge (categories : List Category) (searchString : String)
    (searchResults : List ServerCategory) : List Category :=
  (searchResults.map (fun result =>
      (categoryMapGet categories result.category).getD
        (normalizeCategory result))).filter
    (fun c => !c.isDeleted ||
      includesJS (c.category.map Char.toLower) (searchString.map Char.toLower))

/-- JS `Promise.all` over settled results, determinized to list order: the
combined promise rejects with the first rejection's reason. -/
def promiseAllUnit : List (Except String Unit) → Except String Unit
  | [] => Except.ok ()
  | Except.ok _ :: rest => promiseAllUnit rest
  | Except.error m :: _ => Except.error m

/-- What the user and the state see after the dispatched batch settles:
the error banner (if any) and whether a refetch resynchronized the
working/baseline collections. -/
structure SaveSettle where
  errorMsg : Option String
  refetched : Bool
deriving DecidableEq, Repr

/-- First variant's settlement (`try { await Promise.all(mutations); ...
await fetchData(); } catch (err) { setError(...); await fetchData(); }`):
the refetch happens on both paths. -/
def settleSaveV1 (results : List (Except String Unit)) : SaveSettle :=
  match promiseAllUnit results with
  | Except.ok _ => { errorMsg := none, refetched := true }
  | Except.error m =>
    { errorMsg := some ("Save failed: " ++ m), refetched := true }

/-- Second variant's settlement (`try { await Promise.all(mutations); ...
await fetchInventory(); } catch (err) { setError(...); }`): no refetch on
the failure path. -/
def settleSaveV2 (results : List (Except String Unit)) : SaveSettle :=
  match promiseAllUnit results with
  | Except.ok _ => { errorMsg := none, refetched := true }
  | Except.error m =>
    { errorMsg := some ("Save failed: " ++ m), refetched := false }

/-! Helper lemmas shared by several theorems. -/

/-- Per-row contribution of a clean persisted row to the save batch is
empty: the row is found unchanged among the baselines, so none of the
three branches fires. -/
theorem productMutationFor_self (originals : List Product) (p : Product)
    (hnew : p.isNew = false) (hdel : p.isDeleted = false)
    (hfind : originals.find? (fun o => o.sku == p.sku) = some p) :
    productMutationFor originals p = [] := by
  simp [productMutationFor, hfind, hnew, hdel]

/-- Clean product lists contribute no mutations. -/
theorem productMutations_eq_nil (originals : List Product) (ps : List Product)
    (h : ∀ p ∈ ps, p.isNew = false ∧ p.isDeleted = false ∧
      originals.find? (fun o => o.sku == p.sku) = some p) :
    productMutations originals ps = [] := by
  induction ps with
  | nil => rfl
  | cons p ps ih =>
    have hp := h p (by simp)
    have hrest : productMutations originals ps = [] :=
      ih (fun q hq => h q (by simp [hq]))
    simp [productMutations, hrest,
      productMutationFor_self originals p hp.1 hp.2.1 hp.2.2]

/-- Clean category lists contribute no mutations. -/
theorem categoryMutations_eq_nil (originals : List Category)
    (cs : List Category)
    (h : ∀ c ∈ cs, c.isNew = false ∧ c.isDeleted = false ∧
      originals.find? (fun o => o.category == c.category) = some c) :
    categoryMutations originals cs = [] := by
  induction cs with
  | nil => rfl
  | cons c cs ih =>
    have hc := h c (by simp)
    have hrest : categoryMutations originals cs = [] :=
      ih (fun d hd => h d (by simp [hd]))
    simp [categoryMutations, hrest, categoryMutationFor, hc.1, hc.2.1,
      hc.2.2]

/-- Save refuses to proceed past validation whenever the error list is
non-empty: the outcome is `blocked`, no mutation is issued and the state
is untouched. -/
theorem save_blocked_of_errors (s : DashState)
    (h : validationErrors s ≠ []) (confirmed : Bool) (server : ServerData) :
    handleSaveChanges s confirmed = SaveOutcome.blocked (validationErrors s) ∧
    mutationsIssued s confirmed = [] ∧
    stateAfterSave s confirmed server = s := by
  have hfalse : (validationErrors s).isEmpty = false :=
    List.isEmpty_eq_false.mpr h
  refine ⟨?_, ?_, ?_⟩ <;>
    simp [handleSaveChanges, mutationsIssued, stateAfterSave, hfalse]

/-! C1.  A row with `isNew` and `isDeleted` set is dropped without a remote
call only while its sku matches no persisted baseline row; if the sku
matches one, the delete branch fires because `find` locates the baseline
row. -/

/-- Baseline copy of product A1 used by several concrete states. -/
def baselineA1 : Product :=
  { id := none, sku := "A1", category := "Tools", imageUrl := "",
    productStatus := "ACTIVE", quantityInStock := JVal.num 3,
    localizations := [createDefaultLocalization],
    isNew := false, isDeleted := false }

/-- New row that was given the sku of the persisted product A1 and then
marked deleted before ever being saved. -/
def newDeletedA1 : Product :=
  { id := some "NEW_1", sku := "A1", category := "Tools", imageUrl := "",
    productStatus := "ACTIVE", quantityInStock := JVal.num 0,
    localizations := [createDefaultLocalization],
    isNew := true, isDeleted := true }

/-- Category list holding only the persisted category Tools. -/
def toolsCategories : List Category :=
  [{ category := "Tools", translations := [], isNew := false,
     isDeleted := false }]

/-- State whose working set holds the new-and-deleted row next to the
untouched working copy of the persisted product with the same sku. -/
def c1State : DashState :=
  { products := [newDeletedA1, baselineA1],
    originalProducts := [baselineA1],
    categories := toolsCategories,
    originalCategories := toolsCategories }

/-- C1 counterexample: the claim promises zero remote calls for an
`isNew ∧ isDeleted` row regardless of its sku, but when the row's sku
equals a baseline product's sku the save dispatches `deleteProduct` for
that sku — the baseline row found by `find` satisfies the delete branch. -/
theorem c1_counterexample :
    newDeletedA1.isNew = true ∧ newDeletedA1.isDeleted = true ∧
    productMutationFor [baselineA1] newDeletedA1 =
      [Mutation.deleteProduct "A1"] ∧
    handleSaveChanges c1State true =
      SaveOutcome.dispatched [Mutation.deleteProduct "A1"] := by
  refine ⟨rfl, rfl, by decide, by decide⟩

/-- C1 amended: an `isNew ∧ isDeleted` row contributes no remote call
provided its sku matches no baseline row that is itself persisted
(`isNew = false`); for sku values absent from the baselines this is the
claim as written. -/
theorem c1_amended (originals : List Product) (p : Product)
    (hnew : p.isNew = true) (hdel : p.isDeleted = true)
    (hsku : ∀ o ∈ originals, o.sku = p.sku → o.isNew = true) :
    productMutationFor originals p = [] := by
  unfold productMutationFor
  cases hfind : originals.find? (fun o => o.sku == p.sku) with
  | none => simp [hdel]
  | some o =>
    have ho : o ∈ originals := List.mem_of_find?_eq_some hfind
    have hosku : o.sku = p.sku := by
      have := List.find?_some hfind
      simpa using this
    have : o.isNew = true := hsku o ho hosku
    simp [this, hdel, hnew]

/-- Witness for the amended C1 at a concrete input: a new-and-deleted row
whose sku "X" matches no baseline row contributes nothing. -/
theorem c1_amended_witness :
    ((∀ o ∈ [baselineA1], o.sku = "X" → o.isNew = true) ∧
      productMutationFor [baselineA1]
        { newDeletedA1 with sku := "X" } = []) := by
  refine ⟨by decide, c1_amended [baselineA1] { newDeletedA1 with sku := "X" }
    rfl rfl (by decide)⟩

/-! C7.  A working set in which every record is clean produces an empty
batch: the save early-returns and both collections survive untouched. -/

/-- C7: when no entity is dirty, new or deleted — every working row is
found structurally equal among the baselines — `save()` issues zero remote
calls and leaves the working and baseline collections unchanged, whatever
the user answers to the confirm dialog. -/
theorem c7_clean_save_is_noop (s : DashState)
    (hp : ∀ p ∈ s.products, p.isNew = false ∧ p.isDeleted = false ∧
      s.originalProducts.find? (fun o => o.sku == p.sku) = some p)
    (hc : ∀ c ∈ s.categories, c.isNew = false ∧ c.isDeleted = false ∧
      s.originalCategories.find? (fun o => o.category == c.category) = some c)
    (confirmed : Bool) (server : ServerData) :
    mutationsIssued s confirmed = [] ∧
    stateAfterSave s confirmed server = s := by
  have hmut : computeMutations s = [] := by
    unfold computeMutations
    rw [productMutations_eq_nil s.originalProducts s.products hp,
        categoryMutations_eq_nil s.originalCategories s.categories hc]
    rfl
  cases herr : (validationErrors s).isEmpty with
  | false =>
    have hne : validationErrors s ≠ [] := List.isEmpty_eq_false.mp herr
    exact ⟨(save_blocked_of_errors s hne confirmed server).2.1,
      (save_blocked_of_errors s hne confirmed server).2.2⟩
  | true =>
    cases confirmed with
    | false => simp [mutationsIssued, stateAfterSave, handleSaveChanges, herr]
    | true => simp [mutationsIssued, stateAfterSave, handleSaveChanges, herr, hmut]

/-- Clean one-product one-category state used as the C7 witness. -/
def c7State : DashState :=
  { products := [baselineA1], originalProducts := [baselineA1],
    categories := toolsCategories, originalCategories := toolsCategories }

/-- Witness for C7 at a concrete clean state. -/
theorem c7_witness :
    ((∀ p ∈ c7State.products, p.isNew = false ∧ p.isDeleted = false ∧
        c7State.originalProducts.find? (fun o => o.sku == p.sku) = some p) ∧
      (∀ c ∈ c7State.categories, c.isNew = false ∧ c.isDeleted = false ∧
        c7State.originalCategories.find?
          (fun o => o.category == c.category) = some c) ∧
      (mutationsIssued c7State true = [] ∧
        stateAfterSave c7State true { products := [], categories := [] } =
          c7State)) :=
  ⟨by decide, by decide,
    c7_clean_save_is_noop c7State (by decide) (by decide) true
      { products := [], categories := [] }⟩

/-! C10.  `handleRemoveNewRow` is a frame-preserving filter on the working
list: it drops exactly the rows whose temporary id equals the argument and
cannot touch a persisted row, which carries no id. -/

/-- C10: `handleRemoveNewRow identifier` keeps the surviving rows in
order (the result is a sublist), a row survives exactly when its id
differs from the identifier, and — because persisted rows carry no
temporary id — the subsequence of persisted rows is returned verbatim. -/
theorem c10_remove_new_row_frame (ps : List Product) (identifier : String)
    (h : ∀ p ∈ ps, p.isNew = false → p.id = none) :
    (handleRemoveNewRow ps identifier).Sublist ps ∧
    (∀ p, p ∈ handleRemoveNewRow ps identifier ↔
      p ∈ ps ∧ p.id ≠ some identifier) ∧
    (handleRemoveNewRow ps identifier).filter (fun p => !p.isNew) =
      ps.filter (fun p => !p.isNew) := by
  refine ⟨List.filter_sublist ps, ?_, ?_⟩
  · intro p
    simp [handleRemoveNewRow, List.mem_filter]
  · unfold handleRemoveNewRow
    rw [List.filter_filter]
    apply List.filter_congr
    intro p hp
    cases hn : p.isNew with
    | true => simp
    | false => simp [h p hp hn]

/-- Working list holding one new row and one persisted row, used by the
C10 witness. -/
def c10Products : List Product :=
  [{ id := some "NEW_7", sku := "", category := "Tools", imageUrl := "",
     productStatus := "ACTIVE", quantityInStock := JVal.num 0,
     localizations := [createDefaultLocalization],
     isNew := true, isDeleted := false }, baselineA1]

/-- Witness for C10 at a concrete input: removing the new row leaves the
persisted row untouched. -/
theorem c10_witness :
    ((∀ p ∈ c10Products, p.isNew = false → p.id = none) ∧
      ((handleRemoveNewRow c10Products "NEW_7").Sublist c10Products ∧
        (∀ p, p ∈ handleRemoveNewRow c10Products "NEW_7" ↔
          p ∈ c10Products ∧ p.id ≠ some "NEW_7") ∧
        (handleRemoveNewRow c10Products "NEW_7").filter (fun p => !p.isNew) =
          c10Products.filter (fun p => !p.isNew))) :=
  ⟨by decide, c10_remove_new_row_frame c10Products "NEW_7" (by decide)⟩

/-! C9.  Editing a column and editing it back to the value it held
restores the working list, so a clean persisted row stays outside the
Update bucket. -/

/-- Row identifiers survive `setField` except when a persisted row's sku
column itself is rewritten. -/
theorem prodIdent_setField (p : Product) (f : Field) (v : String)
    (hf : f = Field.sku → p.isNew = true) :
    prodIdent (setField p f v) = prodIdent p := by
  cases f <;> simp [prodIdent, setField] at hf ⊢
  simp [hf]

/-- Writing back the value a column held restores the row. -/
theorem setField_cancel (p : Product) (f : Field) (v w : String)
    (hw : getField p f = JVal.str w) :
    setField (setField p f v) f w = p := by
  cases f <;> simp [getField] at hw <;> simp [setField, ← hw]

/-- C9: editing one column of the targeted rows and then editing it back
to the value it held leaves the working list exactly as it was, and a
clean persisted row — equal to its baseline counterpart — is not
classified as Update: it contributes no mutation at all.  The sku column
is only editable on new rows, whose identifier is the temporary id, so the
identifier survives both edits. -/
theorem c9_revert_not_update (ps originals : List Product)
    (identifier : String) (f : Field) (v w : String)
    (hw : ∀ p ∈ ps, prodIdent p = some identifier →
      getField p f = JVal.str w)
    (hsku : ∀ p ∈ ps, prodIdent p = some identifier → f = Field.sku →
      p.isNew = true) :
    handleInputChange (handleInputChange ps identifier f v) identifier f w
      = ps ∧
    (∀ p ∈ ps, prodIdent p = some identifier → p.isNew = false →
      p.isDeleted = false →
      originals.find? (fun o => o.sku == p.sku) = some p →
      productMutationFor originals p = []) := by
  constructor
  · induction ps with
    | nil => rfl
    | cons p ps ih =>
      have hrest := ih (fun q hq => hw q (by simp [hq]))
        (fun q hq => hsku q (by simp [hq]))
      simp only [handleInputChange, List.map_cons] at hrest ⊢
      rw [hrest]
      cases hm : (prodIdent p == some identifier) with
      | false => simp [hm]
      | true =>
        have hmEq : prodIdent p = some identifier := by
          simpa using hm
        have hid : prodIdent (setField p f v) = prodIdent p :=
          prodIdent_setField p f v (hsku p (by simp) hmEq)
        simp [hm, hid, setField_cancel p f v w (hw p (by simp) hmEq)]
  · intro p _ _ hnew hdel hfind
    exact productMutationFor_self originals p hnew hdel hfind

/-- Witness for C9 at a concrete input: the persisted product A1 has its
category edited away and back, and stays out of the Update bucket. -/
theorem c9_witness :
    ((∀ p ∈ [baselineA1], prodIdent p = some "A1" →
        getField p Field.category = JVal.str "Tools") ∧
      (∀ p ∈ [baselineA1], prodIdent p = some "A1" →
        Field.category = Field.sku → p.isNew = true) ∧
      (handleInputChange
          (handleInputChange [baselineA1] "A1" Field.category "X")
          "A1" Field.category "Tools" = [baselineA1] ∧
        (∀ p ∈ [baselineA1], prodIdent p = some "A1" → p.isNew = false →
          p.isDeleted = false →
          List.find? (fun o => o.sku == p.sku) [baselineA1] = some p →
          productMutationFor [baselineA1] p = []))) :=
  ⟨by decide, by decide,
    c9_revert_not_update [baselineA1] [baselineA1] "A1" Field.category
      "X" "Tools" (by decide) (by decide)⟩

/-! C2.  Category validation gates the save. -/

/-- Validation reports at least one message when some non-deleted product
has an empty category or references a name outside the non-deleted
category names. -/
theorem validationErrors_ne_nil_of_bad_category (s : DashState) (p : Product)
    (hp : p ∈ s.products) (hnd : p.isDeleted = false)
    (hbad : p.category = "" ∨
      (validCategoryNames s.categories).contains p.category = false) :
    validationErrors s ≠ [] := by
  intro hnil
  rw [validationErrors, List.append_assoc, List.append_eq_nil,
    List.append_eq_nil] at hnil
  obtain ⟨h1, h2, _⟩ := hnil
  by_cases hc : p.category = ""
  · have : s.products.any (fun p => !p.isDeleted && p.category == "") = true :=
      List.any_eq_true.mpr ⟨p, hp, by simp [hnd, hc]⟩
    rw [if_pos this] at h1
    exact List.cons_ne_nil _ _ h1
  · have hcont : (validCategoryNames s.categories).contains p.category = false := by
      cases hbad with
      | inl h => exact absurd h hc
      | inr h => exact h
    have hmem : p.category ∉ validCategoryNames s.categories := by
      simpa using hcont
    have : s.products.any (fun p => !p.isDeleted && p.category != "" &&
        !((validCategoryNames s.categories).contains p.category)) = true :=
      List.any_eq_true.mpr ⟨p, hp, by simp [hnd, hc, hmem]⟩
    rw [if_pos this] at h2
    exact List.cons_ne_nil _ _ h2

/-- C2: a non-deleted product with an empty category, or with a category
that is not the name of any non-deleted category of the working set,
makes validation report a violation and makes `save()` abort before any
remote call — in particular when the referenced category was just marked
deleted. -/
theorem c2_category_gate (s : DashState) (p : Product)
    (hp : p ∈ s.products) (hnd : p.isDeleted = false)
    (hbad : p.category = "" ∨
      (validCategoryNames s.categories).contains p.category = false) :
    validationErrors s ≠ [] ∧
    ∀ confirmed server,
      handleSaveChanges s confirmed = SaveOutcome.blocked (validationErrors s) ∧
      mutationsIssued s confirmed = [] ∧
      stateAfterSave s confirmed server = s := by
  have hne := validationErrors_ne_nil_of_bad_category s p hp hnd hbad
  exact ⟨hne, fun confirmed server => save_blocked_of_errors s hne confirmed server⟩

/-- State in which the only category named Tools has been marked deleted
while the untouched product A1 still references it. -/
def c2State : DashState :=
  { products := [baselineA1], originalProducts := [baselineA1],
    categories := [{ category := "Tools", translations := [],
                     isNew := false, isDeleted := true }],
    originalCategories := toolsCategories }

/-- Witness for C2: marking the category Tools deleted while product A1
still references it blocks the save with zero remote calls. -/
theorem c2_witness :
    (baselineA1 ∈ c2State.products ∧ baselineA1.isDeleted = false ∧
      (baselineA1.category = "" ∨
        (validCategoryNames c2State.categories).contains baselineA1.category
          = false) ∧
      (validationErrors c2State ≠ [] ∧
        ∀ confirmed server,
          handleSaveChanges c2State confirmed =
            SaveOutcome.blocked (validationErrors c2State) ∧
          mutationsIssued c2State confirmed = [] ∧
          stateAfterSave c2State confirmed server = c2State)) :=
  ⟨by decide, rfl, by decide,
    c2_category_gate c2State baselineA1 (by decide) rfl (by decide)⟩

/-! C3.  Duplicate-sku validation: the empty sku is exempt (JS truthiness
filter), non-empty duplicates block the save and the banner names each of
them. -/

/-- Characterization of the suffix-walking containment test. -/
theorem containsRun_iff (n : List Char) :
    ∀ h : List Char, containsRun n h = true ↔ n <:+: h := by
  intro h
  induction h with
  | nil => simp [containsRun, List.infix_nil, List.isEmpty_iff]
  | cons c rest ih =>
    rw [containsRun, List.infix_cons_iff]
    constructor
    · intro hor
      rcases Bool.or_eq_true_iff.mp hor with hpre | hrun
      · exact Or.inl (List.isPrefixOf_iff_prefix.mp hpre)
      · exact Or.inr (ih.mp hrun)
    · intro hor
      rcases hor with hpre | hrun
      · exact Bool.or_eq_true_iff.mpr
          (Or.inl (List.isPrefixOf_iff_prefix.mpr hpre))
      · exact Bool.or_eq_true_iff.mpr (Or.inr (ih.mpr hrun))

/-- Every member of a joined list occurs contiguously in the join. -/
theorem mem_joinSep_isInfix (sep : String) :
    ∀ (l : List String) (k : String), k ∈ l →
      k.data <:+: (joinSep sep l).data := by
  intro l
  induction l with
  | nil => intro k hk; cases hk
  | cons a rest ih =>
    intro k hk
    cases rest with
    | nil =>
      have : k = a := by simpa using hk
      subst this
      exact List.infix_refl k.data
    | cons b rest' =>
      rcases List.mem_cons.mp hk with hka | hk'
      · subst hka
        rw [joinSep, String.data_append, String.data_append,
          List.append_assoc]
        exact ⟨[], (sep.data ++ (joinSep sep (b :: rest')).data), rfl⟩
      · have hsub := ih k hk'
        obtain ⟨u, v, huv⟩ := hsub
        rw [joinSep, String.data_append]
        exact ⟨(a ++ sep).data ++ u, v, by
          simpa [List.append_assoc] using
            congrArg (fun x => (a ++ sep).data ++ x) huv⟩

/-- JS `includes` sees every member of the joined duplicate list inside
the banner text. -/
theorem includesJS_dupSkuMessage (products : List Product) (k : String)
    (hk : k ∈ duplicateSkuSet products) :
    includesJS (dupSkuMessage products) k = true := by
  rw [includesJS, containsRun_iff]
  obtain ⟨u, v, huv⟩ :=
    mem_joinSep_isInfix ", " (duplicateSkuSet products) k hk
  rw [dupSkuMessage, String.data_append, String.data_append]
  exact ⟨"Duplicate SKUs found: ".data ++ u, v ++ ".".data, by
    rw [← huv]; simp⟩

/-- Membership in `dedupFirstAux` is membership in the remaining input
outside the already-seen keys. -/
theorem mem_dedupFirstAux (s : String) :
    ∀ (l seen : List String),
      s ∈ dedupFirstAux seen l ↔ s ∈ l ∧ s ∉ seen := by
  intro l
  induction l with
  | nil => intro seen; simp [dedupFirstAux]
  | cons a rest ih =>
    intro seen
    by_cases ha : seen.contains a
    · rw [dedupFirstAux, if_pos ha, ih]
      have haMem : a ∈ seen := by simpa using ha
      constructor
      · rintro ⟨h1, h2⟩; exact ⟨List.mem_cons_of_mem a h1, h2⟩
      · rintro ⟨h1, h2⟩
        rcases List.mem_cons.mp h1 with rfl | h1'
        · exact absurd haMem h2
        · exact ⟨h1', h2⟩
    · rw [dedupFirstAux, if_neg ha]
      have haMem : a ∉ seen := by simpa using ha
      constructor
      · intro hmem
        rcases List.mem_cons.mp hmem with rfl | h'
        · exact ⟨List.mem_cons_self s rest, haMem⟩
        · have := (ih (a :: seen)).mp h'
          refine ⟨List.mem_cons_of_mem a this.1, fun hs => this.2 ?_⟩
          exact List.mem_cons_of_mem a hs
      · rintro ⟨h1, h2⟩
        rcases List.mem_cons.mp h1 with rfl | h1'
        · exact List.mem_cons_self s _
        · by_cases hsa : s = a
          · subst hsa; exact List.mem_cons_self s _
          · refine List.mem_cons_of_mem a ((ih (a :: seen)).mpr ⟨h1', ?_⟩)
            intro hmem
            rcases List.mem_cons.mp hmem with h | h
            · exact hsa h
            · exact h2 h

/-- A sku occurring at least twice among the truthy skus of the
non-deleted rows lands in `duplicateSkuSet`. -/
theorem mem_duplicateSkuSet (products : List Product) (k : String)
    (hdup : 2 ≤ ((products.filter
      (fun p => !p.isDeleted && p.sku != "")).map (fun p => p.sku)).count k) :
    k ∈ duplicateSkuSet products := by
  rw [duplicateSkuSet]
  apply List.mem_filter.mpr
  constructor
  · rw [dedupFirst, mem_dedupFirstAux]
    refine ⟨List.count_pos_iff.mp (by omega), by simp⟩
  · simp only [decide_eq_true_eq]
    omega

/-- C3 (amended): among non-deleted rows a duplicated non-empty sku makes
validation report the duplicate-sku banner, that banner names the sku, and
the save aborts with zero remote calls; the empty sku is exempted by the
code's truthiness filter, which is what the counterexample exhibits. -/
theorem c3_duplicate_sku_blocks (s : DashState) (k : String)
    (hdup : 2 ≤ ((s.products.filter
      (fun p => !p.isDeleted && p.sku != "")).map (fun p => p.sku)).count k) :
    k ∈ duplicateSkuSet s.products ∧
    dupSkuMessage s.products ∈ validationErrors s ∧
    includesJS (dupSkuMessage s.products) k = true ∧
    ∀ confirmed server,
      handleSaveChanges s confirmed = SaveOutcome.blocked (validationErrors s) ∧
      mutationsIssued s confirmed = [] ∧
      stateAfterSave s confirmed server = s := by
  have hk : k ∈ duplicateSkuSet s.products := mem_duplicateSkuSet s.products k hdup
  have hne : (duplicateSkuSet s.products).isEmpty = false :=
    List.isEmpty_eq_false.mpr (List.ne_nil_of_mem hk)
  have hmsg : dupSkuMessage s.products ∈ validationErrors s := by
    rw [validationErrors]
    apply List.mem_append_right
    rw [if_neg (by simp [hne])]
    exact List.mem_cons_self _ _
  have herr : validationErrors s ≠ [] := List.ne_nil_of_mem hmsg
  exact ⟨hk, hmsg, includesJS_dupSkuMessage s.products k hk,
    fun confirmed server => save_blocked_of_errors s herr confirmed server⟩

/-- New row with the sku left empty, as two freshly added rows have. -/
def emptySkuNew (tempId : String) : Product :=
  { id := some tempId, sku := "", category := "Tools", imageUrl := "",
    productStatus := "ACTIVE", quantityInStock := JVal.num 0,
    localizations := [createDefaultLocalization],
    isNew := true, isDeleted := false }

/-- State with two non-deleted rows that carry the same (empty) sku. -/
def c3CexState : DashState :=
  { products := [emptySkuNew "NEW_1", emptySkuNew "NEW_2"],
    originalProducts := [],
    categories := toolsCategories, originalCategories := toolsCategories }

/-- C3 counterexample: two non-deleted working rows share the sku value
`""`, yet validation reports nothing and the save dispatches remote calls
instead of being blocked — the code's `p.sku` truthiness filter exempts
the empty sku from the duplicate check. -/
theorem c3_counterexample :
    (c3CexState.products.filter (fun p => !p.isDeleted)).map
        (fun p => p.sku) = ["", ""] ∧
    validationErrors c3CexState = [] ∧
    mutationsIssued c3CexState true ≠ [] := by
  refine ⟨by decide, by decide, by decide⟩

/-- State with a new row and a persisted row both carrying sku DUP. -/
def c3DupState : DashState :=
  { products :=
      [{ id := some "NEW_9", sku := "DUP", category := "Tools",
         imageUrl := "", productStatus := "ACTIVE",
         quantityInStock := JVal.num 0,
         localizations := [createDefaultLocalization],
         isNew := true, isDeleted := false },
       { baselineA1 with sku := "DUP" }],
    originalProducts := [{ baselineA1 with sku := "DUP" }],
    categories := toolsCategories, originalCategories := toolsCategories }

/-- Witness for the amended C3: one new and one existing row both set
sku DUP; the save is blocked and the banner names DUP. -/
theorem c3_witness :
    (2 ≤ ((c3DupState.products.filter
        (fun p => !p.isDeleted && p.sku != "")).map
          (fun p => p.sku)).count "DUP" ∧
      ("DUP" ∈ duplicateSkuSet c3DupState.products ∧
        dupSkuMessage c3DupState.products ∈ validationErrors c3DupState ∧
        includesJS (dupSkuMessage c3DupState.products) "DUP" = true ∧
        ∀ confirmed server,
          handleSaveChanges c3DupState confirmed =
            SaveOutcome.blocked (validationErrors c3DupState) ∧
          mutationsIssued c3DupState confirmed = [] ∧
          stateAfterSave c3DupState confirmed server = c3DupState)) :=
  ⟨by decide, c3_duplicate_sku_blocks c3DupState "DUP" (by decide)⟩

/-! C4.  Every product keeps at least one localization: the fetch
substitutes a default, the modal rejects the delete that would empty the
list, and no client-side modal operation can shrink the list to zero. -/

/-- A rejected or in-range delete never empties a non-empty list. -/
theorem handleDeleteLocalization_len (locs : List Localization) (i : Nat)
    (h : 1 ≤ locs.length) :
    1 ≤ (handleDeleteLocalization locs i).length := by
  unfold handleDeleteLocalization
  by_cases hle : locs.length ≤ 1
  · rw [if_pos hle]; exact h
  · rw [if_neg hle, List.length_eraseIdx]
    split <;> omega

/-- One modal operation preserves non-emptiness of the list. -/
theorem applyLocOp_len (locs : List Localization) (op : LocOp)
    (h : 1 ≤ locs.length) : 1 ≤ (applyLocOp locs op).length := by
  cases op with
  | add tempId => simp [applyLocOp, handleAddLocalization]
  | delete i => exact handleDeleteLocalization_len locs i h
  | edit i f v =>
    rw [applyLocOp, locInputChange]
    cases hidx : locs[i]? with
    | none => exact h
    | some item => rw [List.length_set]; exact h

/-- C4: the fetch normalization always installs at least one localization
(substituting the default when the server returns none); a delete aimed at
a singleton list is rejected and leaves the list unchanged; and any
sequence of modal operations — add, delete, edit — keeps the list
non-empty, so every reachable localization list of a product has length at
least one. -/
theorem c4_localizations_nonempty :
    (∀ sp : ServerProduct, 1 ≤ (normalizeProduct sp).localizations.length) ∧
    (∀ (locs : List Localization) (i : Nat), locs.length = 1 →
      handleDeleteLocalization locs i = locs) ∧
    (∀ (locs : List Localization) (i : Nat), 1 ≤ locs.length →
      1 ≤ (handleDeleteLocalization locs i).length) ∧
    (∀ (ops : List LocOp) (locs : List Localization), 1 ≤ locs.length →
      1 ≤ (applyLocOps locs ops).length) := by
  refine ⟨?_, ?_, handleDeleteLocalization_len, ?_⟩
  · intro sp
    rw [normalizeProduct]
    by_cases hl : 0 < sp.localizations.length
    · simp only [if_pos hl]; omega
    · simp [hl]
  · intro locs i h
    unfold handleDeleteLocalization
    rw [if_pos (by omega)]
  · intro ops
    induction ops with
    | nil => intro locs h; exact h
    | cons op ops ih =>
      intro locs h
      exact ih (applyLocOp locs op) (applyLocOp_len locs op h)

/-- Witness for C4 at concrete inputs: a server product with no
localizations is normalized to the default list; a delete on a singleton
list is rejected; a delete inside a three-step operation sequence keeps
the list non-empty. -/
theorem c4_witness :
    ([createDefaultLocalization].length = 1 ∧
      1 ≤ ([createDefaultLocalization] : List Localization).length) ∧
    (1 ≤ (normalizeProduct
        { sku := "A1", category := "Tools", imageUrl := "",
          productStatus := "ACTIVE", quantityInStock := 3,
          localizations := [] }).localizations.length ∧
      handleDeleteLocalization [createDefaultLocalization] 0 =
        [createDefaultLocalization] ∧
      1 ≤ (applyLocOps [createDefaultLocalization]
        [LocOp.add "NEW_LOC_1", LocOp.delete 1, LocOp.delete 0]).length) :=
  ⟨⟨rfl, by decide⟩,
    c4_localizations_nonempty.1 _,
    c4_localizations_nonempty.2.1 [createDefaultLocalization] 0 rfl,
    c4_localizations_nonempty.2.2.2
      [LocOp.add "NEW_LOC_1", LocOp.delete 1, LocOp.delete 0]
      [createDefaultLocalization] (by decide)⟩

/-! C5.  Search-merge: the category search folds working copies back in;
the product search replaces the working list with the fresh server
copies, so unsaved product edits are discarded. -/

/-- Working copy of product A1 with an unsaved category edit. -/
def editedA1 : Product := { baselineA1 with category := "Edited" }

/-- Server copy of product A1 as a search would return it. -/
def serverA1 : ServerProduct :=
  { sku := "A1", category := "Tools", imageUrl := "",
    productStatus := "ACTIVE", quantityInStock := 3,
    localizations := [createDefaultLocalization] }

/-- C5 counterexample: a fresh product search whose result set contains
product A1 — present in the working set with an unsaved edit — produces a
merged list holding only the fresh server copy; the locally-tracked
working copy is discarded, not preserved. -/
theorem c5_counterexample :
    editedA1 ≠ normalizeProduct serverA1 ∧
    fetchInventoryProducts [editedA1] none false [serverA1] =
      [normalizeProduct serverA1] ∧
    editedA1 ∉ fetchInventoryProducts [editedA1] none false [serverA1] := by
  refine ⟨by decide, by decide, by decide⟩

/-- C5 (amended): the merge rule holds for categories — a search result
already tracked in the working set is replaced by the working copy — while
for products a fresh filtered search ignores the working list entirely:
its result is the same whatever working copies exist, so unsaved product
edits are dropped rather than merged. -/
theorem c5_merge_split :
    (∀ (current₁ current₂ : List Product) (items : List ServerProduct),
      fetchInventoryProducts current₁ none false items =
        fetchInventoryProducts current₂ none false items) ∧
    (∀ (categories : List Category) (searchString : String)
        (results : List ServerCategory) (r : ServerCategory) (w : Category),
      r ∈ results → categoryMapGet categories r.category = some w →
      w.isDeleted = false →
      w ∈ categorySearchMerge categories searchString results) := by
  constructor
  · intro current₁ current₂ items
    rfl
  · intro categories searchString results r w hr hget hdel
    rw [categorySearchMerge]
    apply List.mem_filter.mpr
    constructor
    · apply List.mem_map.mpr
      exact ⟨r, hr, by rw [hget]; rfl⟩
    · simp [hdel]

/-- Working copy of the category Tools with an unsaved translation edit. -/
def workingToolsCat : Category :=
  { category := "Tools", translations := [{ lang := "en", text := "Tools!" }],
    isNew := false, isDeleted := false }

/-- Server copy of the category Tools with no translations. -/
def serverToolsCat : ServerCategory := { category := "Tools", translations := [] }

/-- Witness for the amended C5 at concrete inputs: the category search
returns the edited working copy, and the product search result is
independent of the working list. -/
theorem c5_witness :
    (serverToolsCat ∈ [serverToolsCat] ∧
      categoryMapGet [workingToolsCat] serverToolsCat.category =
        some workingToolsCat ∧
      workingToolsCat.isDeleted = false ∧
      workingToolsCat ∈
        categorySearchMerge [workingToolsCat] "too" [serverToolsCat] ∧
      fetchInventoryProducts [editedA1] none false [serverA1] =
        fetchInventoryProducts [] none false [serverA1]) :=
  ⟨by decide, by decide, rfl,
    c5_merge_split.2 [workingToolsCat] "too" [serverToolsCat] serverToolsCat
      workingToolsCat (by decide) (by decide) rfl,
    c5_merge_split.1 [editedA1] [] [serverA1]⟩

/-! C6.  The gateway retries an unauthorized first attempt exactly once,
the retry cannot recurse, and a successful second attempt surfaces the
data with no error. -/

/-- A call entered with the retry flag set performs exactly one fetch and
no refresh: both retry branches are dead. -/
theorem graphqlRequest_retry_shape (net : Nat → FetchResponse) (k : Nat) :
    ∃ o, graphqlRequest true net k true =
      { outcome := o, fetches := 1, refreshes := 0 } := by
  rw [graphqlRequest]
  simp only [Bool.not_true, Bool.and_false, Bool.false_eq_true, if_false]
  split
  · exact ⟨_, rfl⟩
  · split
    · exact ⟨_, rfl⟩
    · exact ⟨_, rfl⟩

/-- A call entered with the retry flag set performs exactly one fetch and
no refresh: both retry branches are dead. -/
theorem graphqlRequest_retry_bound (net : Nat → FetchResponse) (k : Nat) :
    (graphqlRequest true net k true).fetches = 1 ∧
    (graphqlRequest true net k true).refreshes = 0 := by
  obtain ⟨o, ho⟩ := graphqlRequest_retry_shape net k
  rw [ho]
  exact ⟨rfl, rfl⟩

/-- A retried attempt that comes back ok with no error entries surfaces
the data payload. -/
theorem graphqlRequest_retry_success (net : Nat → FetchResponse) (k : Nat)
    (hok : statusOk (net k).status = true) (herr : (net k).errors = []) :
    (graphqlRequest true net k true).outcome = ReqOutcome.success (net k).payload := by
  rw [graphqlRequest]
  simp [hok, herr]

/-- The first attempt being unauthorized (401 status or an Unauthorized
application error entry) forces the once-retried recursive call. -/
theorem graphqlRequest_first_unauthorized (net : Nat → FetchResponse)
    (hunauth : (net 0).status = 401 ∨
      (statusOk (net 0).status = true ∧
        (net 0).errors.any (fun e => e.errorType == "Unauthorized") = true)) :
    graphqlRequest true net 0 false =
      { outcome := (graphqlRequest true net 1 true).outcome,
        fetches := (graphqlRequest true net 1 true).fetches + 1,
        refreshes := (graphqlRequest true net 1 true).refreshes + 1 } := by
  rw [graphqlRequest]
  rcases hunauth with h401 | ⟨hok, hany⟩
  · simp [h401]
  · have hne : (net 0).status ≠ 401 := by
      rw [statusOk] at hok
      simp only [Bool.and_eq_true, decide_eq_true_eq] at hok
      omega
    cases herr : (net 0).errors with
    | nil => rw [herr] at hany; simp at hany
    | cons e es =>
      rw [herr] at hany
      simp [hne, hok, herr, hany]

/-- C6: when the first attempt reports unauthorized access — transport
401 or an application-level Unauthorized entry — the gateway refreshes the
token once and issues exactly one more fetch; a call already marked as a
retry can never fetch more than once on any path; and when the second
attempt succeeds the caller receives the data payload with no visible
error. -/
theorem c6_retry_exactly_once (net : Nat → FetchResponse)
    (hunauth : (net 0).status = 401 ∨
      (statusOk (net 0).status = true ∧
        (net 0).errors.any (fun e => e.errorType == "Unauthorized") = true)) :
    (graphqlRequest true net 0 false).fetches = 2 ∧
    (graphqlRequest true net 0 false).refreshes = 1 ∧
    (∀ (net' : Nat → FetchResponse) (k : Nat),
      (graphqlRequest true net' k true).fetches ≤ 1) ∧
    (statusOk (net 1).status = true → (net 1).errors = [] →
      (graphqlRequest true net 0 false).outcome =
        ReqOutcome.success (net 1).payload) := by
  have hstep := graphqlRequest_first_unauthorized net hunauth
  have hbound := graphqlRequest_retry_bound net 1
  refine ⟨?_, ?_, ?_, ?_⟩
  · rw [hstep]; simp [hbound.1]
  · rw [hstep]; simp [hbound.2]
  · intro net' k
    exact Nat.le_of_eq (graphqlRequest_retry_bound net' k).1
  · intro hok herr
    rw [hstep]
    exact graphqlRequest_retry_success net 1 hok herr

/-- Network trace used by the C6 witness: the first attempt is a 401, the
second succeeds with the payload DATA. -/
def c6Net : Nat → FetchResponse := fun k =>
  if k = 0 then { status := 401, errors := [], payload := "" }
  else { status := 200, errors := [], payload := "DATA" }

/-- Witness for C6 at the concrete trace: two fetches, one refresh, retry
bounded, and the caller sees the second attempt's data. -/
theorem c6_witness :
    (((c6Net 0).status = 401 ∨
        (statusOk (c6Net 0).status = true ∧
          (c6Net 0).errors.any (fun e => e.errorType == "Unauthorized") = true)) ∧
      ((graphqlRequest true c6Net 0 false).fetches = 2 ∧
        (graphqlRequest true c6Net 0 false).refreshes = 1 ∧
        (∀ (net' : Nat → FetchResponse) (k : Nat),
          (graphqlRequest true net' k true).fetches ≤ 1) ∧
        (statusOk (c6Net 1).status = true → (c6Net 1).errors = [] →
          (graphqlRequest true c6Net 0 false).outcome =
            ReqOutcome.success (c6Net 1).payload))) :=
  ⟨Or.inl rfl, c6_retry_exactly_once c6Net (Or.inl rfl)⟩

/-! C8.  A failing batch surfaces one message — the first rejection — not
all of them, and only the first Dashboard variant refetches afterward. -/

/-- `Promise.all` over a batch whose first rejection carries message `m`
rejects with exactly `m`. -/
theorem promiseAllUnit_first_error (m : String) :
    ∀ (pre rest : List (Except String Unit)),
      (∀ e ∈ pre, e = Except.ok ()) →
      promiseAllUnit (pre ++ Except.error m :: rest) = Except.error m := by
  intro pre
  induction pre with
  | nil => intro rest _; rfl
  | cons e pre ih =>
    intro rest hpre
    have he : e = Except.ok () := hpre e (by simp)
    subst he
    exact ih rest (fun e' he' => hpre e' (by simp [he']))

/-- C8 (amended): when at least one call of the dispatched batch fails,
the save surfaces only the first failure's message (`Promise.all`
short-circuits; the other failures' messages are lost), and the state is
resynchronized by a refetch only in the first Dashboard variant — the
second variant's catch path performs no refetch. -/
theorem c8_first_failure_only (pre rest : List (Except String Unit))
    (m : String) (hpre : ∀ e ∈ pre, e = Except.ok ()) :
    settleSaveV1 (pre ++ Except.error m :: rest) =
      { errorMsg := some ("Save failed: " ++ m), refetched := true } ∧
    settleSaveV2 (pre ++ Except.error m :: rest) =
      { errorMsg := some ("Save failed: " ++ m), refetched := false } := by
  have h := promiseAllUnit_first_error m pre rest hpre
  rw [settleSaveV1, settleSaveV2, h]
  exact ⟨rfl, rfl⟩

/-- C8 counterexample: with two failing calls the surfaced banner carries
only the first message — the second failure's message is not contained in
it — and the second variant does not refetch, leaving the collections
unsynchronized. -/
theorem c8_counterexample :
    settleSaveV2 [Except.error "first failure", Except.error "second failure"] =
      { errorMsg := some "Save failed: first failure", refetched := false } ∧
    includesJS "Save failed: first failure" "second failure" = false := by
  refine ⟨rfl, by decide⟩

/-- Witness for the amended C8 at a concrete batch. -/
theorem c8_witness :
    ((∀ e ∈ ([Except.ok ()] : List (Except String Unit)), e = Except.ok ()) ∧
      (settleSaveV1 (([Except.ok ()] : List (Except String Unit)) ++
          Except.error "boom" :: [Except.error "late"]) =
        { errorMsg := some "Save failed: boom", refetched := true } ∧
      settleSaveV2 (([Except.ok ()] : List (Except String Unit)) ++
          Except.error "boom" :: [Except.error "late"]) =
        { errorMsg := some "Save failed: boom", refetched := false })) :=
  ⟨by intro e he; simpa using he,
    c8_first_failure_only [Except.ok ()] [Except.error "late"] "boom"
      (by intro e he; simpa using he)⟩
